import Mathlib

/-!
Verification development for the gatewayapi-operator reconciliation core.

The Go sources (internal/controller/{constants,annotations,httproute_controller}.go
and the gateway ensure/create file) are shallowly embedded below.  Kubernetes
objects become plain structures; annotation maps become association lists whose
lookup returns the empty string for a missing key, exactly like a Go map read.
The controller-runtime client is modelled as explicit state passing over a
`World` holding all routes and gateways; every mutating call is additionally
recorded as a `WriteOp` so that theorems can talk about which writes a
reconciliation issues.  Write failures of the external resource store (an
external collaborator) are modelled by the `failingGwKeys` fault set: a
gateway write targeting such a key fails with a store error and leaves the
world unchanged, which is how controller-runtime surfaces a failed call.
-/

/-- Annotation key: decides if the operator manages the route (constants in annotations.go). -/
def AnnotationUseHttprouteOperator : String := "gatewayapi-operator.vitistack.io/enabled"

/-- Annotation key for the IPAM zone. -/
def AnnotationIPAMZone : String := "ipam.vitistack.io/zone"

/-- Annotation key for the route-side cert-manager cluster issuer. -/
def AnnotationClusterIssuer : String := "gatewayapi-operator.vitistack.io/cluster-issuer"

/-- Finalizer added to HTTPRoutes (constants.go). -/
def httprouteFinalizerName : String := "gatewayapi-operator.vitistack.io/finalizer"

/-- Marks HTTPRoute resources that have been reconciled. -/
def reconcileAnnotationKey : String := "gatewayapi-operator.vitistack.io/reconciled"

/-- Tracks the previous gateway reference. -/
def previousGatewayAnnotationKey : String := "gatewayapi-operator.vitistack.io/previous-gateway"

/-- Gateway-side annotation key for the cert-manager cluster issuer. -/
def clusterIssuerAnnotation : String := "cert-manager.io/cluster-issuer"

/-- Default cert-manager cluster issuer. -/
def defaultClusterIssuer : String := "internpki"

/-- The Gateway API gateway class name (constant `gatewayClassName` in constants.go). -/
def gatewayClassNameValue : String := "eg"

/-- Default HTTPS port. -/
def httpsPort : Nat := 443

/-- Suffix for TLS certificate secret names. -/
def tlsCertSuffix : String := "-tls"

/-- Default IPAM zone if not specified. -/
def defaultIPAMZone : String := "hnet-private"

/-- Go map read `m[k]`: value for the first matching key, else the empty string. -/
def lookupD (anns : List (String × String)) (k : String) : String :=
  match anns with
  | [] => ""
  | (k', v) :: rest => if k' = k then v else lookupD rest k

/-- Go two-valued map read `v, ok := m[k]`. -/
def lookupAnn (anns : List (String × String)) (k : String) : Option String :=
  match anns with
  | [] => none
  | (k', v) :: rest => if k' = k then some v else lookupAnn rest k

/-- Go `_, exists := m[k]`. -/
def hasKey (anns : List (String × String)) (k : String) : Bool :=
  anns.any (fun kv => kv.1 == k)

/-- Go map write `m[k] = v` (replace first occurrence or append). -/
def setAnn (anns : List (String × String)) (k v : String) : List (String × String) :=
  match anns with
  | [] => [(k, v)]
  | (k', v') :: rest => if k' = k then (k, v) :: rest else (k', v') :: setAnn rest k v

/-- One entry of a listener's TLS `CertificateRefs` (gatewayv1.SecretObjectReference). -/
structure SecretObjectReference where
  group : String
  kind : String
  name : String
  ns : String
deriving DecidableEq, Repr

/-- A gatewayv1.Listener as built by this operator.  `ns` fields stand for the
Go `Namespace` fields (`namespace` is a Lean keyword). -/
structure Listener where
  name : String
  protocol : String
  port : Nat
  hostname : Option String
  allowedRoutesFromAll : Bool
  tlsModeTerminate : Bool
  certificateRefs : List SecretObjectReference
deriving DecidableEq, Repr

/-- A parent reference of an HTTPRoute: gateway name and optional namespace. -/
structure ParentRef where
  name : String
  ns? : Option String
deriving DecidableEq, Repr

/-- A gatewayv1.HTTPRoute restricted to the fields the controller reads.
`deletionTimestampIsZero` embeds `route.DeletionTimestamp.IsZero()`. -/
structure HTTPRoute where
  ns : String
  name : String
  annotations : List (String × String)
  parentRefs : List ParentRef
  hostnames : List String
  deletionTimestampIsZero : Bool
  finalizers : List String
deriving DecidableEq, Repr

/-- A gatewayv1.Gateway restricted to the fields the controller touches.
`infrastructure` is `Option (Option _)` because both `Spec.Infrastructure`
and its `Annotations` map can independently be nil in Go. -/
structure Gateway where
  ns : String
  name : String
  annotations : List (String × String)
  gatewayClassName : String
  listeners : List Listener
  infrastructure : Option (Option (List (String × String)))
deriving DecidableEq, Repr

/-- The resource store's state: all routes and gateways, plus the fault set
for gateway writes (modelling the external store's possible write failures). -/
structure World where
  routes : List HTTPRoute
  gateways : List Gateway
  failingGwKeys : List (String × String)
deriving DecidableEq, Repr

/-- Errors surfaced by the embedded controller. -/
inductive RErr where
  | conflict
  | notFound
  | storeError
  | alreadyExists
  | badRequest (msg : String)
deriving DecidableEq, Repr

/-- One mutating call issued against the resource store. -/
inductive WriteOp where
  | createGw (g : Gateway)
  | deleteGw (ns name : String)
  | patchGwListeners (ns name className : String) (listeners : List Listener)
  | patchRouteAnns (ns name : String) (anns : List (String × String))
  | updateRouteObj (r : HTTPRoute)
deriving DecidableEq, Repr

/-- Result of an embedded controller step: optional error, the store state
after the step, and the trace of issued writes. -/
structure RecResult where
  err : Option RErr
  world : World
  ops : List WriteOp
deriving DecidableEq, Repr

/-- `client.Get` on an HTTPRoute key. -/
def findRoute (w : World) (ns name : String) : Option HTTPRoute :=
  w.routes.find? (fun r => r.ns == ns && r.name == name)

/-- `client.Get` on a Gateway key. -/
def findGateway (w : World) (ns name : String) : Option Gateway :=
  w.gateways.find? (fun g => g.ns == ns && g.name == name)

/-- createHTTPSListener (annotations.go): HTTPS listener for a hostname with
TLS configuration; certificate secret `{hostname}-tls` in the gateway's namespace. -/
def createHTTPSListener (hostname : String) (gatewayNamespace : String) : Listener :=
  { name := hostname
    protocol := "HTTPS"
    port := httpsPort
    hostname := some hostname
    allowedRoutesFromAll := true
    tlsModeTerminate := true
    certificateRefs :=
      [{ group := ""
         kind := "Secret"
         name := hostname ++ tlsCertSuffix
         ns := gatewayNamespace }] }

/-- The parent-reference scan of collectListenersForGateway: the route matches
when ANY parent reference has the gateway's name and its namespace — or, when
the reference carries none, the TARGET gateway's namespace — equals the
gateway's namespace. -/
def routeMatchesGateway (route : HTTPRoute) (gatewayName gatewayNamespace : String) : Bool :=
  route.parentRefs.any (fun parentRef =>
    parentRef.name == gatewayName && parentRef.ns?.getD gatewayNamespace == gatewayNamespace)

/-- The per-route filter of collectListenersForGateway: not being deleted,
enabled annotation exactly "true", and referencing the gateway. -/
def routeQualifies (route : HTTPRoute) (gatewayName gatewayNamespace : String) : Bool :=
  route.deletionTimestampIsZero
    && lookupD route.annotations AnnotationUseHttprouteOperator == "true"
    && routeMatchesGateway route gatewayName gatewayNamespace

/-- Insertion into the hostname set (`hostnameSet[hostname] = true`), kept as a
duplicate-free list in insertion order. -/
def insertHostname (acc : List String) (h : String) : List String :=
  if h ∈ acc then acc else acc ++ [h]

/-- The hostname set collected by collectListenersForGateway over all routes. -/
def collectHostnames (routes : List HTTPRoute) (gatewayName gatewayNamespace : String) :
    List String :=
  routes.foldl
    (fun acc route =>
      if routeQualifies route gatewayName gatewayNamespace then
        route.hostnames.foldl insertHostname acc
      else acc)
    []

/-- collectListenersForGateway (annotations.go): one HTTPS listener per
collected hostname.  The Go map iteration order is not fixed; the model fixes
insertion order, which no caller of the set-shaped result depends on. -/
def collectListenersForGateway (routes : List HTTPRoute)
    (gatewayName gatewayNamespace : String) : List Listener :=
  (collectHostnames routes gatewayName gatewayNamespace).map
    (fun h => createHTTPSListener h gatewayNamespace)

/-- Modelled from the spec: the Route Aggregator's filter as the spec words it
(first parent reference only, namespace defaulting to the ROUTE's own
namespace); used only to compare the spec's wording against the code. -/
def specQualifies (route : HTTPRoute) (gatewayName gatewayNamespace : String) : Bool :=
  route.deletionTimestampIsZero
    && lookupD route.annotations AnnotationUseHttprouteOperator == "true"
    && (match route.parentRefs with
        | [] => false
        | parentRef :: _ =>
          parentRef.name == gatewayName && parentRef.ns?.getD route.ns == gatewayNamespace)

/-- Modelled from the spec: the hostname union under the spec's filter. -/
def specHostnames (routes : List HTTPRoute) (gatewayName gatewayNamespace : String) :
    List String :=
  routes.foldl
    (fun acc route =>
      if specQualifies route gatewayName gatewayNamespace then
        route.hostnames.foldl insertHostname acc
      else acc)
    []

/-- Replace the route with key `r'.ns`/`r'.name` by `r'` (client.Update on a route). -/
def updateRouteInWorld (w : World) (r' : HTTPRoute) : World :=
  { w with routes := w.routes.map (fun r => if r.ns == r'.ns && r.name == r'.name then r' else r) }

/-- Server-side-apply patch of a route's annotations (owner "gatewayapi-operator"). -/
def applyRouteAnnsPatch (w : World) (ns name : String) (anns : List (String × String)) :
    RecResult :=
  ⟨none,
   { w with
     routes := w.routes.map
       (fun r => if r.ns == ns && r.name == name then { r with annotations := anns } else r) },
   [WriteOp.patchRouteAnns ns name anns]⟩

/-- `client.Delete` on a gateway; fails when the store rejects the write. -/
def deleteGatewayOp (w : World) (ns name : String) : RecResult :=
  if (ns, name) ∈ w.failingGwKeys then ⟨some RErr.storeError, w, []⟩
  else
    ⟨none,
     { w with gateways := w.gateways.filter (fun g => !(g.ns == ns && g.name == name)) },
     [WriteOp.deleteGw ns name]⟩

/-- Server-side-apply patch of a gateway's gatewayClassName and listeners
(owner "gatewayapi-operator", ForceOwnership); upserts when the key is absent. -/
def applyGatewayPatch (w : World) (ns name className : String) (listeners : List Listener) :
    World :=
  if w.gateways.any (fun g => g.ns == ns && g.name == name) then
    { w with
      gateways := w.gateways.map
        (fun g => if g.ns == ns && g.name == name then
            { g with gatewayClassName := className, listeners := listeners }
          else g) }
  else
    { w with
      gateways := w.gateways ++
        [{ ns := ns, name := name, annotations := [], gatewayClassName := className,
           listeners := listeners, infrastructure := none }] }

/-- `client.Patch` (apply) on a gateway; fails when the store rejects the write. -/
def patchGatewayOp (w : World) (ns name className : String) (listeners : List Listener) :
    RecResult :=
  if (ns, name) ∈ w.failingGwKeys then ⟨some RErr.storeError, w, []⟩
  else ⟨none, applyGatewayPatch w ns name className listeners,
        [WriteOp.patchGwListeners ns name className listeners]⟩

/-- `client.Create` on a gateway; fails on a store fault or when the key exists. -/
def createGatewayOp (w : World) (g : Gateway) : RecResult :=
  if (g.ns, g.name) ∈ w.failingGwKeys then ⟨some RErr.storeError, w, []⟩
  else
    match findGateway w g.ns g.name with
    | some _ => ⟨some RErr.alreadyExists, w, []⟩
    | none => ⟨none, { w with gateways := w.gateways ++ [g] }, [WriteOp.createGw g]⟩

/-- updateGatewayListeners (annotations.go): recompute the listener set; when it
is empty delete the gateway, otherwise server-side-apply the full listener set. -/
def updateGatewayListeners (w : World) (gateway : Gateway) (gatewayNamespace : String) :
    RecResult :=
  let gatewayName := gateway.name
  let newListeners := collectListenersForGateway w.routes gatewayName gatewayNamespace
  if newListeners = [] then
    deleteGatewayOp w gateway.ns gateway.name
  else
    patchGatewayOp w gatewayNamespace gatewayName gateway.gatewayClassName newListeners

/-- The gateway object built by createGateway: issuer as a plain annotation,
zone in the infrastructure annotation map, the fixed class name. -/
def newGatewayFor (gatewayName gatewayNamespace ipamZone clusterIssuer : String)
    (listeners : List Listener) : Gateway :=
  { ns := gatewayNamespace
    name := gatewayName
    annotations := [( clusterIssuerAnnotation, clusterIssuer)]
    gatewayClassName := gatewayClassNameValue
    listeners := listeners
    infrastructure := some (some [( AnnotationIPAMZone, ipamZone)]) }

/-- createGateway: build a fresh gateway from the triggering route's effective
issuer and zone and the aggregated listener set, and create it. -/
def createGateway (w : World) (gatewayName gatewayNamespace ipamZone clusterIssuer : String) :
    RecResult :=
  createGatewayOp w (newGatewayFor gatewayName gatewayNamespace ipamZone clusterIssuer
    (collectListenersForGateway w.routes gatewayName gatewayNamespace))

/-- ensureGateway: create the gateway when absent; otherwise validate the
recorded cluster issuer and (when recorded) the IPAM zone against the route's
effective values before updating the listeners. -/
def ensureGateway (w : World) (gatewayName gatewayNamespace ipamZone clusterIssuer : String) :
    RecResult :=
  match findGateway w gatewayNamespace gatewayName with
  | none => createGateway w gatewayName gatewayNamespace ipamZone clusterIssuer
  | some gateway =>
    let existingIssuer := lookupD gateway.annotations clusterIssuerAnnotation
    if existingIssuer ≠ clusterIssuer then
      ⟨some (RErr.badRequest ("HTTPRoute cluster issuer mismatch: Gateway has issuer '"
          ++ existingIssuer ++ "' but HTTPRoute requires '" ++ clusterIssuer ++ "'")), w, []⟩
    else
      match gateway.infrastructure with
      | some (some infraAnns) =>
        match lookupAnn infraAnns AnnotationIPAMZone with
        | some existingZone =>
          if existingZone ≠ ipamZone then
            ⟨some (RErr.badRequest ("HTTPRoute IPAM zone mismatch: Gateway has zone '"
                ++ existingZone ++ "' but HTTPRoute requires '" ++ ipamZone ++ "'")), w, []⟩
          else updateGatewayListeners w gateway gatewayNamespace
        | none => updateGatewayListeners w gateway gatewayNamespace
      | some none => updateGatewayListeners w gateway gatewayNamespace
      | none => updateGatewayListeners w gateway gatewayNamespace

/-- The character scan of updateOldGateway: split at the FIRST slash;
no slash yields the pair of empty strings. -/
def splitAtFirstSlash (cs : List Char) : Option (List Char × List Char) :=
  match cs with
  | [] => none
  | c :: rest =>
    if c = '/' then some ([], rest)
    else
      match splitAtFirstSlash rest with
      | some (a, b) => some (c :: a, b)
      | none => none

/-- Parse a `namespace/name` gateway reference as updateOldGateway does. -/
def parseGatewayRef (s : String) : String × String :=
  match splitAtFirstSlash s.toList with
  | some (a, b) => (String.mk a, String.mk b)
  | none => ("", "")

/-- updateOldGateway (httproute_controller.go): best-effort resync of the
gateway named by a `namespace/name` reference; an invalid format or a missing
gateway is success, an empty aggregation deletes the gateway. -/
def updateOldGateway (w : World) (gatewayRef : String) : RecResult :=
  let parsed := parseGatewayRef gatewayRef
  let gatewayNamespace := parsed.1
  let gatewayName := parsed.2
  if gatewayNamespace = "" ∨ gatewayName = "" then
    ⟨none, w, []⟩
  else
    match findGateway w gatewayNamespace gatewayName with
    | none => ⟨none, w, []⟩
    | some gateway =>
      let listeners := collectListenersForGateway w.routes gatewayName gatewayNamespace
      if listeners = [] then
        deleteGatewayOp w gateway.ns gateway.name
      else
        patchGatewayOp w gatewayNamespace gatewayName gateway.gatewayClassName listeners

/-- handleHTTPRouteDeletion: resync the gateway's listeners; a missing gateway
is success. -/
def handleHTTPRouteDeletion (w : World) (gatewayName gatewayNamespace : String) : RecResult :=
  match findGateway w gatewayNamespace gatewayName with
  | none => ⟨none, w, []⟩
  | some gateway => updateGatewayListeners w gateway gatewayNamespace

/-- retry.DefaultRetry.Steps of client-go. -/
def defaultRetrySteps : Nat := 5

/-- retry.RetryOnConflict: rerun the body while it reports a staleness
conflict, up to the step bound; any other outcome is returned as-is. -/
def retryOnConflict (steps : Nat) (body : World → RecResult) (w : World) : RecResult :=
  match steps with
  | 0 => ⟨some RErr.conflict, w, []⟩
  | Nat.succ n =>
    let r := body w
    match r.err with
    | some RErr.conflict =>
      let r2 := retryOnConflict n body r.world
      ⟨r2.err, r2.world, r.ops ++ r2.ops⟩
    | _ => r

/-- The finalizer-removal closure of the deletion branch: re-read the route,
treat "already gone" and "finalizer already removed" as success, otherwise
update the route without the finalizer. -/
def removeFinalizerBody (reqNs reqName : String) (w : World) : RecResult :=
  match findRoute w reqNs reqName with
  | none => ⟨none, w, []⟩
  | some latest =>
    if httprouteFinalizerName ∈ latest.finalizers then
      let latest' := { latest with
        finalizers := latest.finalizers.filter (fun f => f ≠ httprouteFinalizerName) }
      ⟨none, updateRouteInWorld w latest', [WriteOp.updateRouteObj latest']⟩
    else ⟨none, w, []⟩

/-- The finalizer-add closure: re-read the route (a read failure propagates
here), skip when the finalizer is already present, otherwise append it. -/
def addFinalizerBody (reqNs reqName : String) (w : World) : RecResult :=
  match findRoute w reqNs reqName with
  | none => ⟨some RErr.notFound, w, []⟩
  | some latest =>
    if httprouteFinalizerName ∈ latest.finalizers then ⟨none, w, []⟩
    else
      let latest' := { latest with finalizers := latest.finalizers ++ [httprouteFinalizerName] }
      ⟨none, updateRouteInWorld w latest', [WriteOp.updateRouteObj latest']⟩

/-- Lines 189-194 of Reconcile: IPAM zone from the annotation, or the default. -/
def effectiveIPAMZone (anns : List (String × String)) : String :=
  let z := lookupD anns AnnotationIPAMZone
  if z = "" then defaultIPAMZone else z

/-- Lines 196-201 of Reconcile: cluster issuer from the annotation, or the default. -/
def effectiveClusterIssuer (anns : List (String × String)) : String :=
  let c := lookupD anns AnnotationClusterIssuer
  if c = "" then defaultClusterIssuer else c

/-- Lines 56-62 of Reconcile: gateway name from the first parent reference,
namespace from it as well when present, else the route's own namespace. -/
def effectiveGatewayRef (route : HTTPRoute) : Option (String × String) :=
  match route.parentRefs with
  | [] => none
  | parentRef :: _ => some (parentRef.name, parentRef.ns?.getD route.ns)

/-- The deletion branch of Reconcile (lines 65-112): when the finalizer is
present, resync the gateway of the FIRST PARENT REFERENCE, then remove the
finalizer under RetryOnConflict, tolerating not-found; terminal either way. -/
def reconcileDeletion (w : World) (reqNs reqName gatewayName gatewayNamespace : String)
    (httpRoute : HTTPRoute) : RecResult :=
  if httprouteFinalizerName ∈ httpRoute.finalizers then
    let r1 := handleHTTPRouteDeletion w gatewayName gatewayNamespace
    match r1.err with
    | some e => ⟨some e, r1.world, r1.ops⟩
    | none =>
      let r2 := retryOnConflict defaultRetrySteps (removeFinalizerBody reqNs reqName) r1.world
      match r2.err with
      | some RErr.notFound => ⟨none, r2.world, r1.ops ++ r2.ops⟩
      | some e => ⟨some e, r2.world, r1.ops ++ r2.ops⟩
      | none => ⟨none, r2.world, r1.ops ++ r2.ops⟩
  else ⟨none, w, []⟩

/-- The non-deleting remainder of Reconcile (lines 114-209): migration check
(old-gateway errors are logged and dropped), finalizer ensure (terminal),
annotation sync, effective issuer/zone resolution, ensureGateway. -/
def reconcileSteady (w : World) (reqNs reqName gatewayName gatewayNamespace : String)
    (httpRoute : HTTPRoute) : RecResult :=
  let currentGatewayRef := gatewayNamespace ++ "/" ++ gatewayName
  let previousGatewayRef := lookupD httpRoute.annotations previousGatewayAnnotationKey
  let r1 : RecResult :=
    if previousGatewayRef ≠ "" ∧ previousGatewayRef ≠ currentGatewayRef then
      let u := updateOldGateway w previousGatewayRef
      ⟨none, u.world, u.ops⟩
    else ⟨none, w, []⟩
  if httprouteFinalizerName ∈ httpRoute.finalizers then
    let anns1 :=
      if hasKey httpRoute.annotations reconcileAnnotationKey then httpRoute.annotations
      else setAnn httpRoute.annotations reconcileAnnotationKey "true"
    let anns2 :=
      if lookupD anns1 previousGatewayAnnotationKey = currentGatewayRef then anns1
      else setAnn anns1 previousGatewayAnnotationKey currentGatewayRef
    let needsUpdate :=
      (!hasKey httpRoute.annotations reconcileAnnotationKey)
        || (lookupD anns1 previousGatewayAnnotationKey != currentGatewayRef)
    let r2 :=
      if needsUpdate then applyRouteAnnsPatch r1.world httpRoute.ns httpRoute.name anns2
      else ⟨none, r1.world, []⟩
    match r2.err with
    | some e => ⟨some e, r2.world, r1.ops ++ r2.ops⟩
    | none =>
      let ipamZone := effectiveIPAMZone anns2
      let clusterIssuer := effectiveClusterIssuer anns2
      let r3 := ensureGateway r2.world gatewayName gatewayNamespace ipamZone clusterIssuer
      ⟨r3.err, r3.world, r1.ops ++ r2.ops ++ r3.ops⟩
  else
    let r2 := retryOnConflict defaultRetrySteps (addFinalizerBody reqNs reqName) r1.world
    ⟨r2.err, r2.world, r1.ops ++ r2.ops⟩

/-- Reconcile (httproute_controller.go): load the route, skip when the
operator is not enabled or there is no parent reference, then branch on the
deletion marker. -/
def reconcile (w : World) (reqNs reqName : String) : RecResult :=
  match findRoute w reqNs reqName with
  | none => ⟨none, w, []⟩
  | some httpRoute =>
    if lookupD httpRoute.annotations AnnotationUseHttprouteOperator ≠ "true" then
      ⟨none, w, []⟩
    else
      match effectiveGatewayRef httpRoute with
      | none => ⟨none, w, []⟩
      | some (gatewayName, gatewayNamespace) =>
        if httpRoute.deletionTimestampIsZero = false then
          reconcileDeletion w reqNs reqName gatewayName gatewayNamespace httpRoute
        else
          reconcileSteady w reqNs reqName gatewayName gatewayNamespace httpRoute

/-!  Concrete instances used by witnesses and counterexamples below. -/

/-- An enabled, live route naming the target gateway only in its SECOND parent
reference. -/
def rteC1 : HTTPRoute :=
  { ns := "a", name := "r1",
    annotations := [(AnnotationUseHttprouteOperator, "true")],
    parentRefs := [{ name := "other", ns? := none }, { name := "g1", ns? := none }],
    hostnames := ["h1.example.com"],
    deletionTimestampIsZero := true, finalizers := [] }

/-- An existing gateway recording cluster issuer `issuer-a`. -/
def gw2i : Gateway :=
  { ns := "n2", name := "g2",
    annotations := [( clusterIssuerAnnotation, "issuer-a")],
    gatewayClassName := gatewayClassNameValue,
    listeners := [createHTTPSListener "h2.example.com" "n2"],
    infrastructure := none }

def w2i : World := { routes := [], gateways := [gw2i], failingGwKeys := [] }

/-- An existing gateway recording issuer `issuer-a` and zone `zone-a`. -/
def gw2z : Gateway :=
  { ns := "m2", name := "k2",
    annotations := [( clusterIssuerAnnotation, "issuer-a")],
    gatewayClassName := gatewayClassNameValue,
    listeners := [createHTTPSListener "h2b.example.com" "m2"],
    infrastructure := some (some [(AnnotationIPAMZone, "zone-a")]) }

def w2z : World := { routes := [], gateways := [gw2z], failingGwKeys := [] }

/-- A gateway with one listener and no qualifying route left in its world. -/
def gw3 : Gateway :=
  { ns := "n3", name := "g3",
    annotations := [( clusterIssuerAnnotation, defaultClusterIssuer)],
    gatewayClassName := gatewayClassNameValue,
    listeners := [createHTTPSListener "h3.example.com" "n3"],
    infrastructure := none }

def w3 : World := { routes := [], gateways := [gw3], failingGwKeys := [] }

/-- A fully reconciled (settled) route for gateway `n4/g4`. -/
def rte4 : HTTPRoute :=
  { ns := "n4", name := "r4",
    annotations := [(AnnotationUseHttprouteOperator, "true"), (reconcileAnnotationKey, "true"),
      (previousGatewayAnnotationKey, "n4/g4")],
    parentRefs := [{ name := "g4", ns? := none }],
    hostnames := ["h4.example.com"],
    deletionTimestampIsZero := true,
    finalizers := [httprouteFinalizerName] }

/-- The gateway of `rte4` exactly as the operator created it. -/
def gw4 : Gateway :=
  { ns := "n4", name := "g4",
    annotations := [( clusterIssuerAnnotation, defaultClusterIssuer)],
    gatewayClassName := gatewayClassNameValue,
    listeners := [createHTTPSListener "h4.example.com" "n4"],
    infrastructure := some (some [(AnnotationIPAMZone, defaultIPAMZone)]) }

/-- A settled world: one reconciled route, its gateway in sync. -/
def w4 : World := { routes := [rte4], gateways := [gw4], failingGwKeys := [] }

/-- A reconciled route whose gateway `n5/g5` does not exist yet; it declares
no issuer and no zone annotation. -/
def rte5 : HTTPRoute :=
  { ns := "n5", name := "r5",
    annotations := [(AnnotationUseHttprouteOperator, "true"), (reconcileAnnotationKey, "true"),
      (previousGatewayAnnotationKey, "n5/g5")],
    parentRefs := [{ name := "g5", ns? := none }],
    hostnames := ["h5.example.com"],
    deletionTimestampIsZero := true,
    finalizers := [httprouteFinalizerName] }

def w5 : World := { routes := [rte5], gateways := [], failingGwKeys := [] }

/-- The gateway that reconciling `rte5` must create. -/
def gw5created : Gateway :=
  { ns := "n5", name := "g5",
    annotations := [( clusterIssuerAnnotation, defaultClusterIssuer)],
    gatewayClassName := gatewayClassNameValue,
    listeners := [createHTTPSListener "h5.example.com" "n5"],
    infrastructure := some (some [(AnnotationIPAMZone, defaultIPAMZone)]) }

/-- A route in namespace `alpha` whose only parent reference omits the namespace. -/
def rteC6 : HTTPRoute :=
  { ns := "alpha", name := "r6",
    annotations := [(AnnotationUseHttprouteOperator, "true")],
    parentRefs := [{ name := "gw6", ns? := none }],
    hostnames := ["h6.example.com"],
    deletionTimestampIsZero := true, finalizers := [] }

/-- A route being deleted whose previous-gateway annotation (`p7/old7`) and
first parent reference (`q7/new7`) name different gateways. -/
def rte7 : HTTPRoute :=
  { ns := "n7", name := "r7",
    annotations := [(AnnotationUseHttprouteOperator, "true"),
      (previousGatewayAnnotationKey, "p7/old7")],
    parentRefs := [{ name := "new7", ns? := some "q7" }],
    hostnames := ["h7.example.com"],
    deletionTimestampIsZero := false, finalizers := [httprouteFinalizerName] }

def gwOld7 : Gateway :=
  { ns := "p7", name := "old7", annotations := [], gatewayClassName := gatewayClassNameValue,
    listeners := [createHTTPSListener "h7.example.com" "p7"], infrastructure := none }

def gwNew7 : Gateway :=
  { ns := "q7", name := "new7", annotations := [], gatewayClassName := gatewayClassNameValue,
    listeners := [createHTTPSListener "h7.example.com" "q7"], infrastructure := none }

def w7 : World := { routes := [rte7], gateways := [gwOld7, gwNew7], failingGwKeys := [] }

/-- A route migrating from gateway `p8/old8` to `n8/g8`. -/
def rte8 : HTTPRoute :=
  { ns := "n8", name := "r8",
    annotations := [(AnnotationUseHttprouteOperator, "true"), (reconcileAnnotationKey, "true"),
      (previousGatewayAnnotationKey, "p8/old8")],
    parentRefs := [{ name := "g8", ns? := none }],
    hostnames := ["h8.example.com"],
    deletionTimestampIsZero := true, finalizers := [httprouteFinalizerName] }

def gwOld8 : Gateway :=
  { ns := "p8", name := "old8", annotations := [], gatewayClassName := gatewayClassNameValue,
    listeners := [createHTTPSListener "h8.example.com" "p8"], infrastructure := none }

/-- World where every write to the old gateway `p8/old8` fails in the store. -/
def w8 : World := { routes := [rte8], gateways := [gwOld8], failingGwKeys := [("p8", "old8")] }

/-- The gateway that reconciling `rte8` must create despite the old-gateway failure. -/
def gw8created : Gateway :=
  { ns := "n8", name := "g8",
    annotations := [( clusterIssuerAnnotation, defaultClusterIssuer)],
    gatewayClassName := gatewayClassNameValue,
    listeners := [createHTTPSListener "h8.example.com" "n8"],
    infrastructure := some (some [(AnnotationIPAMZone, defaultIPAMZone)]) }

/-- An enabled route with zero parent references. -/
def rte8a : HTTPRoute :=
  { ns := "n8a", name := "r8a",
    annotations := [(AnnotationUseHttprouteOperator, "true")],
    parentRefs := [], hostnames := ["h8a.example.com"],
    deletionTimestampIsZero := true, finalizers := [] }

def w8a : World := { routes := [rte8a], gateways := [], failingGwKeys := [] }

/-- A gateway with an issuer annotation but no Infrastructure block at all. -/
def gw9a : Gateway :=
  { ns := "n9", name := "g9",
    annotations := [( clusterIssuerAnnotation, "issuer-x")],
    gatewayClassName := gatewayClassNameValue,
    listeners := [], infrastructure := none }

def w9a : World := { routes := [], gateways := [gw9a], failingGwKeys := [] }

/-- A gateway lacking the cluster-issuer annotation entirely. -/
def gw9b : Gateway :=
  { ns := "m9", name := "k9",
    annotations := [], gatewayClassName := gatewayClassNameValue,
    listeners := [], infrastructure := none }

def w9b : World := { routes := [], gateways := [gw9b], failingGwKeys := [] }

/-- A DISABLED route that is being deleted and still carries the finalizer. -/
def rte10 : HTTPRoute :=
  { ns := "n10", name := "r10",
    annotations := [(AnnotationUseHttprouteOperator, "false")],
    parentRefs := [{ name := "g10", ns? := none }],
    hostnames := ["h10.example.com"],
    deletionTimestampIsZero := false, finalizers := [httprouteFinalizerName] }

def gw10 : Gateway :=
  { ns := "n10", name := "g10", annotations := [], gatewayClassName := gatewayClassNameValue,
    listeners := [createHTTPSListener "h10.example.com" "n10"], infrastructure := none }

def w10 : World := { routes := [rte10], gateways := [gw10], failingGwKeys := [] }

/-! Helper lemmas about the hostname-set fold. -/

theorem insertHostname_mem (acc : List String) (h x : String) :
    x ∈ insertHostname acc h ↔ x ∈ acc ∨ x = h := by
  unfold insertHostname
  by_cases hm : h ∈ acc
  · rw [if_pos hm]
    constructor
    · exact Or.inl
    · rintro (hx | rfl)
      · exact hx
      · exact hm
  · rw [if_neg hm]
    simp [List.mem_append]

theorem insertHostname_nodup (acc : List String) (h : String) (hn : acc.Nodup) :
    (insertHostname acc h).Nodup := by
  unfold insertHostname
  by_cases hm : h ∈ acc
  · rwa [if_pos hm]
  · rw [if_neg hm]
    refine List.Nodup.append hn (List.nodup_singleton h) ?_
    intro a ha hb
    rw [List.mem_singleton] at hb
    subst hb
    exact hm ha

theorem foldl_insertHostname_mem (hs : List String) :
    ∀ acc x, x ∈ hs.foldl insertHostname acc ↔ x ∈ acc ∨ x ∈ hs := by
  induction hs with
  | nil => intro acc x; simp
  | cons h t ih =>
    intro acc x
    rw [List.foldl_cons, ih, insertHostname_mem, List.mem_cons]
    tauto

theorem foldl_insertHostname_nodup (hs : List String) :
    ∀ acc, acc.Nodup → (hs.foldl insertHostname acc).Nodup := by
  induction hs with
  | nil => intro acc hn; exact hn
  | cons h t ih =>
    intro acc hn
    rw [List.foldl_cons]
    exact ih _ (insertHostname_nodup acc h hn)

theorem collectHostnames_foldl_mem (gatewayName gatewayNamespace : String)
    (routes : List HTTPRoute) :
    ∀ acc x,
      x ∈ routes.foldl
        (fun acc route =>
          if routeQualifies route gatewayName gatewayNamespace then
            route.hostnames.foldl insertHostname acc
          else acc) acc
      ↔ x ∈ acc ∨ ∃ r, r ∈ routes ∧ routeQualifies r gatewayName gatewayNamespace = true
                        ∧ x ∈ r.hostnames := by
  induction routes with
  | nil => intro acc x; simp
  | cons r t ih =>
    intro acc x
    rw [List.foldl_cons]
    by_cases hq : routeQualifies r gatewayName gatewayNamespace = true
    · rw [if_pos hq, ih, foldl_insertHostname_mem]
      constructor
      · rintro ((hx | hx) | ⟨r', hr', hq', hx⟩)
        · exact Or.inl hx
        · exact Or.inr ⟨r, List.mem_cons_self r t, hq, hx⟩
        · exact Or.inr ⟨r', List.mem_cons_of_mem r hr', hq', hx⟩
      · rintro (hx | ⟨r', hr', hq', hx⟩)
        · exact Or.inl (Or.inl hx)
        · rcases List.mem_cons.mp hr' with rfl | hr'
          · exact Or.inl (Or.inr hx)
          · exact Or.inr ⟨r', hr', hq', hx⟩
    · rw [if_neg hq, ih]
      constructor
      · rintro (hx | ⟨r', hr', hq', hx⟩)
        · exact Or.inl hx
        · exact Or.inr ⟨r', List.mem_cons_of_mem r hr', hq', hx⟩
      · rintro (hx | ⟨r', hr', hq', hx⟩)
        · exact Or.inl hx
        · rcases List.mem_cons.mp hr' with rfl | hr'
          · exact absurd hq' hq
          · exact Or.inr ⟨r', hr', hq', hx⟩

theorem collectHostnames_foldl_nodup (gatewayName gatewayNamespace : String)
    (routes : List HTTPRoute) :
    ∀ acc : List String, acc.Nodup →
      (routes.foldl
        (fun acc route =>
          if routeQualifies route gatewayName gatewayNamespace then
            route.hostnames.foldl insertHostname acc
          else acc) acc).Nodup := by
  induction routes with
  | nil => intro acc hn; exact hn
  | cons r t ih =>
    intro acc hn
    rw [List.foldl_cons]
    by_cases hq : routeQualifies r gatewayName gatewayNamespace = true
    · rw [if_pos hq]
      exact ih _ (foldl_insertHostname_nodup _ _ hn)
    · rw [if_neg hq]
      exact ih _ hn

theorem collectHostnames_mem (routes : List HTTPRoute) (gatewayName gatewayNamespace x : String) :
    x ∈ collectHostnames routes gatewayName gatewayNamespace
      ↔ ∃ r, r ∈ routes ∧ routeQualifies r gatewayName gatewayNamespace = true
             ∧ x ∈ r.hostnames := by
  unfold collectHostnames
  rw [collectHostnames_foldl_mem]
  simp

theorem collectHostnames_nodup (routes : List HTTPRoute) (gatewayName gatewayNamespace : String) :
    (collectHostnames routes gatewayName gatewayNamespace).Nodup := by
  unfold collectHostnames
  exact collectHostnames_foldl_nodup _ _ _ _ List.nodup_nil

/-- C1: the listener set computed by collectListenersForGateway is, as a set,
exactly one HTTPS listener per hostname in the deduplicated union of the
hostnames of all routes that are live, enabled with the exact string "true",
and reference the gateway through ANY parent reference whose namespace — the
TARGET gateway's namespace when the reference omits it — equals the gateway's
namespace (amended from: first parent reference only, with the namespace
defaulting to the route's own namespace). -/
theorem c1_listener_union_amended (routes : List HTTPRoute)
    (gatewayName gatewayNamespace : String) :
    (collectHostnames routes gatewayName gatewayNamespace).Nodup
    ∧ (∀ h, h ∈ collectHostnames routes gatewayName gatewayNamespace ↔
        ∃ r, r ∈ routes ∧ routeQualifies r gatewayName gatewayNamespace = true
             ∧ h ∈ r.hostnames)
    ∧ (collectListenersForGateway routes gatewayName gatewayNamespace).map Listener.name
        = collectHostnames routes gatewayName gatewayNamespace
    ∧ (∀ l, l ∈ collectListenersForGateway routes gatewayName gatewayNamespace →
        l = createHTTPSListener l.name gatewayNamespace ∧ l.protocol = "HTTPS"
          ∧ l.port = httpsPort ∧ l.hostname = some l.name) := by
  refine ⟨collectHostnames_nodup routes gatewayName gatewayNamespace,
    fun h => collectHostnames_mem routes gatewayName gatewayNamespace h, ?_, ?_⟩
  · unfold collectListenersForGateway
    induction collectHostnames routes gatewayName gatewayNamespace with
    | nil => rfl
    | cons h t ih =>
      simp only [List.map_cons, ih]
      rfl
  · intro l hl
    unfold collectListenersForGateway at hl
    rcases List.mem_map.mp hl with ⟨h, _, rfl⟩
    exact ⟨rfl, rfl, rfl, rfl⟩

/-- C1: counterexample to the claim as stated — a route that names the target
gateway only via its SECOND parent reference does contribute its hostname, so
the computed listener set differs from the claimed first-parent union. -/
theorem c1_first_parent_counterexample :
    specHostnames [rteC1] "g1" "a" = []
    ∧ collectHostnames [rteC1] "g1" "a" = rteC1.hostnames := by
  constructor <;> rfl

theorem lookupAnn_none_lookupD (anns : List (String × String)) (k : String)
    (h : lookupAnn anns k = none) : lookupD anns k = "" := by
  induction anns with
  | nil => rfl
  | cons kv rest ih =>
    obtain ⟨k', v⟩ := kv
    unfold lookupAnn at h
    unfold lookupD
    by_cases hk : k' = k
    · rw [if_pos hk] at h
      exact absurd h (by simp)
    · rw [if_neg hk] at h
      rw [if_neg hk]
      exact ih h

/-- C2: for an existing gateway, a cluster-issuer mismatch — and, when a zone
is recorded, a zone mismatch — makes ensureGateway return a bad-request error
naming the attribute and both values, with the store state unchanged and no
write issued. -/
theorem c2_conflict_rejection (w : World)
    (gatewayName gatewayNamespace ipamZone clusterIssuer : String) (gateway : Gateway)
    (hfind : findGateway w gatewayNamespace gatewayName = some gateway) :
    (lookupD gateway.annotations clusterIssuerAnnotation ≠ clusterIssuer →
      ensureGateway w gatewayName gatewayNamespace ipamZone clusterIssuer =
        ⟨some (RErr.badRequest ("HTTPRoute cluster issuer mismatch: Gateway has issuer '"
            ++ lookupD gateway.annotations clusterIssuerAnnotation
            ++ "' but HTTPRoute requires '" ++ clusterIssuer ++ "'")), w, []⟩)
    ∧ (∀ infraAnns existingZone,
        lookupD gateway.annotations clusterIssuerAnnotation = clusterIssuer →
        gateway.infrastructure = some (some infraAnns) →
        lookupAnn infraAnns AnnotationIPAMZone = some existingZone →
        existingZone ≠ ipamZone →
        ensureGateway w gatewayName gatewayNamespace ipamZone clusterIssuer =
          ⟨some (RErr.badRequest ("HTTPRoute IPAM zone mismatch: Gateway has zone '"
              ++ existingZone ++ "' but HTTPRoute requires '" ++ ipamZone ++ "'")), w, []⟩) := by
  constructor
  · intro hne
    simp only [ensureGateway, hfind]
    rw [if_pos hne]
  · intro infraAnns existingZone heq hinfra hzone hne
    simp only [ensureGateway, hfind, hinfra, hzone]
    rw [if_neg (by simp [heq]), if_pos hne]

/-- C9: the zone check of ensureGateway is one-sided — with a matching issuer,
a gateway with no Infrastructure block, a nil infrastructure annotation map,
or no zone key accepts any route zone without comparison — while the issuer
check always runs and reads a missing issuer annotation as the empty string,
so such a gateway fails validation against every non-empty route issuer. -/
theorem c9_one_sided_zone_check (w : World)
    (gatewayName gatewayNamespace ipamZone clusterIssuer : String) (gateway : Gateway)
    (hfind : findGateway w gatewayNamespace gatewayName = some gateway) :
    (lookupD gateway.annotations clusterIssuerAnnotation = clusterIssuer →
      (gateway.infrastructure = none ∨ gateway.infrastructure = some none
        ∨ ∃ infraAnns, gateway.infrastructure = some (some infraAnns)
            ∧ lookupAnn infraAnns AnnotationIPAMZone = none) →
      ensureGateway w gatewayName gatewayNamespace ipamZone clusterIssuer =
        updateGatewayListeners w gateway gatewayNamespace)
    ∧ (lookupAnn gateway.annotations clusterIssuerAnnotation = none →
        clusterIssuer ≠ "" →
        ensureGateway w gatewayName gatewayNamespace ipamZone clusterIssuer =
          ⟨some (RErr.badRequest ("HTTPRoute cluster issuer mismatch: Gateway has issuer '"
              ++ "" ++ "' but HTTPRoute requires '" ++ clusterIssuer ++ "'")), w, []⟩) := by
  constructor
  · intro heq hshape
    rcases hshape with hnone | hsnone | ⟨infraAnns, hinfra, hzone⟩
    · simp only [ensureGateway, hfind, hnone]
      rw [if_neg (by simp [heq])]
    · simp only [ensureGateway, hfind, hsnone]
      rw [if_neg (by simp [heq])]
    · simp only [ensureGateway, hfind, hinfra, hzone]
      rw [if_neg (by simp [heq])]
  · intro hmiss hne
    have hempty : lookupD gateway.annotations clusterIssuerAnnotation = "" :=
      lookupAnn_none_lookupD _ _ hmiss
    simp only [ensureGateway, hfind, hempty]
    rw [if_pos (by exact fun hcontra => hne hcontra.symm)]

/-- C3: when the recomputed listener set is empty, both updateGatewayListeners
and updateOldGateway DELETE the gateway, and neither ever issues a patch
carrying an empty listener sequence. -/
theorem c3_empty_listeners_delete :
    (∀ (w : World) (gateway : Gateway) (gatewayNamespace : String),
      collectListenersForGateway w.routes gateway.name gatewayNamespace = [] →
      (gateway.ns, gateway.name) ∉ w.failingGwKeys →
      updateGatewayListeners w gateway gatewayNamespace =
        ⟨none,
         { w with
           gateways := w.gateways.filter
             (fun g => !(g.ns == gateway.ns && g.name == gateway.name)) },
         [WriteOp.deleteGw gateway.ns gateway.name]⟩)
    ∧ (∀ (w : World) (gateway : Gateway) (gatewayNamespace ns n c : String),
        WriteOp.patchGwListeners ns n c [] ∉ (updateGatewayListeners w gateway gatewayNamespace).ops)
    ∧ (∀ (w : World) (gatewayRef : String) (gateway : Gateway),
        (parseGatewayRef gatewayRef).1 ≠ "" →
        (parseGatewayRef gatewayRef).2 ≠ "" →
        findGateway w (parseGatewayRef gatewayRef).1 (parseGatewayRef gatewayRef).2 = some gateway →
        collectListenersForGateway w.routes (parseGatewayRef gatewayRef).2
          (parseGatewayRef gatewayRef).1 = [] →
        (gateway.ns, gateway.name) ∉ w.failingGwKeys →
        updateOldGateway w gatewayRef =
          ⟨none,
           { w with
             gateways := w.gateways.filter
               (fun g => !(g.ns == gateway.ns && g.name == gateway.name)) },
           [WriteOp.deleteGw gateway.ns gateway.name]⟩)
    ∧ (∀ (w : World) (gatewayRef : String) (ns n c : String),
        WriteOp.patchGwListeners ns n c [] ∉ (updateOldGateway w gatewayRef).ops) := by
  refine ⟨?_, ?_, ?_, ?_⟩
  · intro w gateway gatewayNamespace hempty hok
    simp only [updateGatewayListeners, hempty]
    rw [if_pos trivial]
    simp only [deleteGatewayOp]
    rw [if_neg hok]
  · intro w gateway gatewayNamespace ns n c
    simp only [updateGatewayListeners]
    by_cases hempty : collectListenersForGateway w.routes gateway.name gatewayNamespace = []
    · rw [if_pos hempty]
      simp only [deleteGatewayOp]
      by_cases hok : (gateway.ns, gateway.name) ∈ w.failingGwKeys
      · rw [if_pos hok]; simp
      · rw [if_neg hok]; simp
    · rw [if_neg hempty]
      simp only [patchGatewayOp]
      by_cases hok : (gatewayNamespace, gateway.name) ∈ w.failingGwKeys
      · rw [if_pos hok]; simp
      · rw [if_neg hok]
        intro hmem
        rw [List.mem_singleton] at hmem
        injection hmem with h1 h2 h3 h4
        exact hempty h4.symm
  · intro w gatewayRef gateway hns hname hfind hempty hok
    simp only [updateOldGateway]
    rw [if_neg (by rintro (h | h); exact hns h; exact hname h)]
    simp only [hfind, hempty]
    rw [if_pos trivial]
    simp only [deleteGatewayOp]
    rw [if_neg hok]
  · intro w gatewayRef ns n c
    simp only [updateOldGateway]
    by_cases hbad : (parseGatewayRef gatewayRef).1 = "" ∨ (parseGatewayRef gatewayRef).2 = ""
    · rw [if_pos hbad]; simp
    · rw [if_neg hbad]
      cases hfind : findGateway w (parseGatewayRef gatewayRef).1 (parseGatewayRef gatewayRef).2 with
      | none => simp
      | some gateway =>
        simp only []
        by_cases hempty : collectListenersForGateway w.routes (parseGatewayRef gatewayRef).2
            (parseGatewayRef gatewayRef).1 = []
        · rw [if_pos hempty]
          simp only [deleteGatewayOp]
          by_cases hok : (gateway.ns, gateway.name) ∈ w.failingGwKeys
          · rw [if_pos hok]; simp
          · rw [if_neg hok]; simp
        · rw [if_neg hempty]
          simp only [patchGatewayOp]
          by_cases hok : ((parseGatewayRef gatewayRef).1, (parseGatewayRef gatewayRef).2) ∈ w.failingGwKeys
          · rw [if_pos hok]; simp
          · rw [if_neg hok]
            intro hmem
            rw [List.mem_singleton] at hmem
            injection hmem with h1 h2 h3 h4
            exact hempty h4.symm

/-- C6: amended — for the TRIGGERING route, Reconcile's effective gateway
namespace is the route's own namespace when the first parent reference omits
it; but inside route aggregation an omitted parent-reference namespace
defaults to the TARGET gateway's namespace, so such a route matches the named
gateway in every namespace (not just its own). -/
theorem c6_namespace_default_amended :
    (∀ (route : HTTPRoute) (pr : ParentRef) (prs : List ParentRef),
      route.parentRefs = pr :: prs → pr.ns? = none →
      effectiveGatewayRef route = some (pr.name, route.ns))
    ∧ (∀ (route : HTTPRoute) (gatewayName gatewayNamespace : String) (pr : ParentRef),
        pr ∈ route.parentRefs → pr.name = gatewayName → pr.ns? = none →
        routeMatchesGateway route gatewayName gatewayNamespace = true) := by
  constructor
  · intro route pr prs hpr hns
    simp [effectiveGatewayRef, hpr, hns]
  · intro route gatewayName gatewayNamespace pr hmem hname hns
    unfold routeMatchesGateway
    rw [List.any_eq_true]
    exact ⟨pr, hmem, by simp [hname, hns]⟩

/-- C6: counterexample to the claim as stated — route `rteC6` lives in
namespace `alpha` and its first parent reference omits the namespace, yet
inside the aggregation it matches gateway `gw6` in namespace `beta`: the
effective namespace used there is the gateway's, not the route's. -/
theorem c6_namespace_default_counterexample :
    rteC6.ns = "alpha"
    ∧ rteC6.parentRefs = [{ name := "gw6", ns? := none }]
    ∧ specHostnames [rteC6] "gw6" "beta" = []
    ∧ collectHostnames [rteC6] "gw6" "beta" = rteC6.hostnames :=
  ⟨rfl, rfl, rfl, rfl⟩

/-- C6: witness instantiating both halves of the amended theorem. -/
theorem c6_namespace_default_witness :
    effectiveGatewayRef rteC6 = some ("gw6", "alpha")
    ∧ routeMatchesGateway rteC6 "gw6" "beta" = true :=
  ⟨c6_namespace_default_amended.1 rteC6 { name := "gw6", ns? := none } [] rfl rfl,
   c6_namespace_default_amended.2 rteC6 "gw6" "beta" { name := "gw6", ns? := none }
     (by decide) rfl rfl⟩

/-- C10: the enabled check precedes the deletion branch — a route whose
enabled annotation is not exactly "true" makes Reconcile return success with
no writes and an unchanged store, regardless of deletion marker or finalizer. -/
theorem c10_enabled_before_deletion (w : World) (reqNs reqName : String) (route : HTTPRoute)
    (hfind : findRoute w reqNs reqName = some route)
    (hdis : lookupD route.annotations AnnotationUseHttprouteOperator ≠ "true") :
    reconcile w reqNs reqName = ⟨none, w, []⟩ := by
  simp only [reconcile, hfind]
  rw [if_pos hdis]

/-- C10: witness — a disabled route that is being deleted and still holds the
finalizer is left alone entirely. -/
theorem c10_enabled_before_deletion_witness :
    rte10.deletionTimestampIsZero = false
    ∧ httprouteFinalizerName ∈ rte10.finalizers
    ∧ reconcile w10 "n10" "r10" = ⟨none, w10, []⟩ :=
  ⟨rfl, by decide, c10_enabled_before_deletion w10 "n10" "r10" rte10 rfl (by decide)⟩

/-- C5: when the target gateway does not exist, reconciling a settled route
creates it with the route's effective (declared-or-default) cluster issuer as
a gateway annotation, the effective zone in the infrastructure annotation
map, and the aggregated listener set; no conflict check runs and the only
write is the create. -/
theorem c5_creation_defaults (w : World) (reqNs reqName : String) (route : HTTPRoute)
    (pr : ParentRef) (prs : List ParentRef)
    (hfind : findRoute w reqNs reqName = some route)
    (hen : lookupD route.annotations AnnotationUseHttprouteOperator = "true")
    (hpr : route.parentRefs = pr :: prs)
    (hlive : route.deletionTimestampIsZero = true)
    (hprev : lookupD route.annotations previousGatewayAnnotationKey
        = pr.ns?.getD route.ns ++ "/" ++ pr.name)
    (hfin : httprouteFinalizerName ∈ route.finalizers)
    (hrec : hasKey route.annotations reconcileAnnotationKey = true)
    (habs : findGateway w (pr.ns?.getD route.ns) pr.name = none)
    (hok : (pr.ns?.getD route.ns, pr.name) ∉ w.failingGwKeys) :
    reconcile w reqNs reqName =
      ⟨none,
       { w with
         gateways := w.gateways ++
           [newGatewayFor pr.name (pr.ns?.getD route.ns)
             (effectiveIPAMZone route.annotations) (effectiveClusterIssuer route.annotations)
             (collectListenersForGateway w.routes pr.name (pr.ns?.getD route.ns))] },
       [WriteOp.createGw
         (newGatewayFor pr.name (pr.ns?.getD route.ns)
           (effectiveIPAMZone route.annotations) (effectiveClusterIssuer route.annotations)
           (collectListenersForGateway w.routes pr.name (pr.ns?.getD route.ns)))]⟩ := by
  simp only [reconcile, hfind]
  rw [if_neg (fun hcontra => hcontra hen)]
  simp only [effectiveGatewayRef, hpr]
  have hnotdel : ¬(route.deletionTimestampIsZero = false) := by
    rw [hlive]
    simp
  rw [if_neg hnotdel]
  have hmig : ¬(lookupD route.annotations previousGatewayAnnotationKey ≠ ""
      ∧ lookupD route.annotations previousGatewayAnnotationKey
          ≠ pr.ns?.getD route.ns ++ "/" ++ pr.name) := by
    rintro ⟨h1, h2⟩
    exact h2 hprev
  simp only [reconcileSteady]
  rw [if_neg hmig, if_pos hfin]
  simp only [hrec, hprev, eq_self_iff_true, if_true, Bool.not_true, bne_self_eq_false,
    Bool.or_self, Bool.false_eq_true, if_false]
  simp only [ensureGateway, habs, createGateway, createGatewayOp, newGatewayFor]
  rw [if_neg hok]
  simp only [habs]
  simp

/-- C5: witness — reconciling `rte5` (which declares neither issuer nor zone)
creates gateway `n5/g5` with the default issuer and zone and its listener. -/
theorem c5_creation_defaults_witness :
    reconcile w5 "n5" "r5" =
      ⟨none, { w5 with gateways := [gw5created] }, [WriteOp.createGw gw5created]⟩ := by
  have h := c5_creation_defaults w5 "n5" "r5" rte5 { name := "g5", ns? := none } []
    rfl rfl rfl rfl rfl (by decide) rfl rfl (by decide)
  exact h

theorem findGateway_keys (w : World) (ns n : String) (g : Gateway)
    (h : findGateway w ns n = some g) : g.ns = ns ∧ g.name = n ∧ g ∈ w.gateways := by
  unfold findGateway at h
  have hmem := List.mem_of_find?_eq_some h
  have hp := List.find?_some h
  rw [Bool.and_eq_true, beq_iff_eq, beq_iff_eq] at hp
  exact ⟨hp.1, hp.2, hmem⟩

/-- C4: amended — re-running reconciliation on a settled state (route
annotations synced, finalizer present, gateway in sync with the aggregation)
changes nothing in the store and issues no create, update, or delete; the one
write issued is a server-side-apply patch carrying the unchanged listener
set, whose application leaves the world exactly as it was. -/
theorem c4_idempotent_patch_amended (w : World) (reqNs reqName : String) (route : HTTPRoute)
    (pr : ParentRef) (prs : List ParentRef) (gw : Gateway)
    (infraAnns : List (String × String))
    (hfind : findRoute w reqNs reqName = some route)
    (hen : lookupD route.annotations AnnotationUseHttprouteOperator = "true")
    (hpr : route.parentRefs = pr :: prs)
    (hlive : route.deletionTimestampIsZero = true)
    (hprev : lookupD route.annotations previousGatewayAnnotationKey
        = pr.ns?.getD route.ns ++ "/" ++ pr.name)
    (hfin : httprouteFinalizerName ∈ route.finalizers)
    (hrec : hasKey route.annotations reconcileAnnotationKey = true)
    (hgw : findGateway w (pr.ns?.getD route.ns) pr.name = some gw)
    (huniq : ∀ g ∈ w.gateways, g.ns = pr.ns?.getD route.ns → g.name = pr.name → g = gw)
    (hiss : lookupD gw.annotations clusterIssuerAnnotation
        = effectiveClusterIssuer route.annotations)
    (hinfra : gw.infrastructure = some (some infraAnns))
    (hzone : lookupAnn infraAnns AnnotationIPAMZone
        = some (effectiveIPAMZone route.annotations))
    (hlist : gw.listeners = collectListenersForGateway w.routes pr.name (pr.ns?.getD route.ns))
    (hne : collectListenersForGateway w.routes pr.name (pr.ns?.getD route.ns) ≠ [])
    (hok : (pr.ns?.getD route.ns, pr.name) ∉ w.failingGwKeys) :
    reconcile w reqNs reqName =
      ⟨none, w,
       [WriteOp.patchGwListeners (pr.ns?.getD route.ns) pr.name gw.gatewayClassName
          gw.listeners]⟩ := by
  obtain ⟨hgns, hgname, hgmem⟩ := findGateway_keys _ _ _ _ hgw
  simp only [reconcile, hfind]
  rw [if_neg (fun hcontra => hcontra hen)]
  simp only [effectiveGatewayRef, hpr]
  have hnotdel : ¬(route.deletionTimestampIsZero = false) := by
    rw [hlive]
    simp
  rw [if_neg hnotdel]
  have hmig : ¬(lookupD route.annotations previousGatewayAnnotationKey ≠ ""
      ∧ lookupD route.annotations previousGatewayAnnotationKey
          ≠ pr.ns?.getD route.ns ++ "/" ++ pr.name) := by
    rintro ⟨h1, h2⟩
    exact h2 hprev
  simp only [reconcileSteady]
  rw [if_neg hmig, if_pos hfin]
  simp only [hrec, hprev, eq_self_iff_true, if_true, Bool.not_true, bne_self_eq_false,
    Bool.or_self, Bool.false_eq_true, if_false]
  simp only [ensureGateway, hgw, hinfra, hzone]
  rw [if_neg (fun hcontra => hcontra hiss)]
  rw [if_neg (fun hcontra => hcontra rfl)]
  simp only [updateGatewayListeners, hgname]
  rw [if_neg hne]
  simp only [patchGatewayOp]
  rw [if_neg hok]
  have hany : (w.gateways.any
      (fun g => g.ns == pr.ns?.getD route.ns && g.name == pr.name)) = true := by
    rw [List.any_eq_true]
    exact ⟨gw, hgmem, by rw [Bool.and_eq_true, beq_iff_eq, beq_iff_eq]; exact ⟨hgns, hgname⟩⟩
  simp only [applyGatewayPatch]
  rw [if_pos hany]
  have hmap : w.gateways.map
      (fun g => if g.ns == pr.ns?.getD route.ns && g.name == pr.name then
          { g with gatewayClassName := gw.gatewayClassName,
                   listeners := collectListenersForGateway w.routes pr.name
                     (pr.ns?.getD route.ns) }
        else g) = w.gateways := by
    have hid : ∀ g ∈ w.gateways,
        (if g.ns == pr.ns?.getD route.ns && g.name == pr.name then
            { g with gatewayClassName := gw.gatewayClassName,
                     listeners := collectListenersForGateway w.routes pr.name
                       (pr.ns?.getD route.ns) }
          else g) = id g := by
      intro g hg
      by_cases hc : (g.ns == pr.ns?.getD route.ns && g.name == pr.name) = true
      · rw [if_pos hc]
        rw [Bool.and_eq_true, beq_iff_eq, beq_iff_eq] at hc
        have hgeq := huniq g hg hc.1 hc.2
        subst hgeq
        rw [← hlist]
        rfl
      · rw [if_neg hc]
        rfl
    rw [List.map_congr_left hid, List.map_id]
  rw [hmap, ← hlist]
  simp

/-- C4: counterexample to the claim as stated — from the settled world `w4`
(the fixed point of a previous successful reconciliation: error-free and
state-unchanged), re-running reconciliation still issues a write operation
(the unconditional server-side-apply listener patch). -/
theorem c4_idempotence_counterexample :
    (reconcile w4 "n4" "r4").err = none
    ∧ (reconcile w4 "n4" "r4").world = w4
    ∧ (reconcile w4 "n4" "r4").ops ≠ [] := by
  refine ⟨by decide, by decide, by decide⟩

/-- C4: witness for the amended theorem at the settled world `w4`. -/
theorem c4_idempotent_patch_witness :
    reconcile w4 "n4" "r4" =
      ⟨none, w4, [WriteOp.patchGwListeners "n4" "g4" gw4.gatewayClassName gw4.listeners]⟩ :=
  c4_idempotent_patch_amended w4 "n4" "r4" rte4 { name := "g4", ns? := none } [] gw4
    [( AnnotationIPAMZone, defaultIPAMZone)]
    rfl rfl rfl rfl rfl (by decide) rfl rfl (by decide) rfl rfl rfl rfl (by decide) (by decide)

theorem findRoute_routes_eq (w1 w2 : World) (ns n : String) (h : w1.routes = w2.routes) :
    findRoute w1 ns n = findRoute w2 ns n := by
  unfold findRoute
  rw [h]

theorem handleHTTPRouteDeletion_routes (w : World) (gatewayName gatewayNamespace : String) :
    (handleHTTPRouteDeletion w gatewayName gatewayNamespace).world.routes = w.routes := by
  unfold handleHTTPRouteDeletion
  cases hg : findGateway w gatewayNamespace gatewayName with
  | none => rfl
  | some gateway =>
    dsimp only
    simp only [updateGatewayListeners]
    by_cases hempty : collectListenersForGateway w.routes gateway.name gatewayNamespace = []
    · rw [if_pos hempty]
      unfold deleteGatewayOp
      by_cases hf : (gateway.ns, gateway.name) ∈ w.failingGwKeys
      · rw [if_pos hf]
      · rw [if_neg hf]
    · rw [if_neg hempty]
      unfold patchGatewayOp
      by_cases hf : (gatewayNamespace, gateway.name) ∈ w.failingGwKeys
      · rw [if_pos hf]
      · rw [if_neg hf]
        unfold applyGatewayPatch
        by_cases ha : (w.gateways.any fun g => g.ns == gatewayNamespace && g.name == gateway.name) = true
        · rw [if_pos ha]
        · rw [if_neg ha]

theorem removeFinalizerBody_err (reqNs reqName : String) (w : World) :
    (removeFinalizerBody reqNs reqName w).err = none := by
  unfold removeFinalizerBody
  cases hf : findRoute w reqNs reqName with
  | none => rfl
  | some latest =>
    dsimp only
    by_cases hm : httprouteFinalizerName ∈ latest.finalizers
    · rw [if_pos hm]
    · rw [if_neg hm]

theorem retryOnConflict_no_conflict (steps : Nat) (body : World → RecResult) (w : World)
    (h : (body w).err ≠ some RErr.conflict) :
    retryOnConflict (steps + 1) body w = body w := by
  unfold retryOnConflict
  cases hbe : (body w).err with
  | none => simp only [hbe]
  | some e =>
    cases e with
    | conflict => exact absurd hbe h
    | notFound => simp only [hbe]
    | storeError => simp only [hbe]
    | alreadyExists => simp only [hbe]
    | badRequest msg => simp only [hbe]

theorem find?_map_update (r' : HTTPRoute) (l : List HTTPRoute)
    (hfound : (l.find? (fun r => r.ns == r'.ns && r.name == r'.name)).isSome = true) :
    (l.map (fun r => if r.ns == r'.ns && r.name == r'.name then r' else r)).find?
        (fun r => r.ns == r'.ns && r.name == r'.name) = some r' := by
  induction l with
  | nil => simp at hfound
  | cons r t ih =>
    rw [List.map_cons]
    by_cases hp : (r.ns == r'.ns && r.name == r'.name) = true
    · rw [if_pos hp]
      rw [List.find?_cons_of_pos _ (by simp)]
    · rw [if_neg hp]
      have hstep :
          List.find? (fun r => r.ns == r'.ns && r.name == r'.name)
            (r :: (t.map (fun r => if r.ns == r'.ns && r.name == r'.name then r' else r)))
          = List.find? (fun r => r.ns == r'.ns && r.name == r'.name)
            (t.map (fun r => if r.ns == r'.ns && r.name == r'.name then r' else r)) :=
        List.find?_cons_of_neg _ hp
      have hfound' :
          (List.find? (fun r => r.ns == r'.ns && r.name == r'.name) t).isSome = true := by
        rw [show List.find? (fun r => r.ns == r'.ns && r.name == r'.name) (r :: t)
            = List.find? (fun r => r.ns == r'.ns && r.name == r'.name) t from
          List.find?_cons_of_neg _ hp] at hfound
        exact hfound
      rw [hstep]
      exact ih hfound'

theorem findRoute_updateRouteInWorld (w : World) (reqNs reqName : String) (r' : HTTPRoute)
    (hkeyNs : r'.ns = reqNs) (hkeyName : r'.name = reqName)
    (hfound : (findRoute w reqNs reqName).isSome = true) :
    findRoute (updateRouteInWorld w r') reqNs reqName = some r' := by
  subst hkeyNs
  subst hkeyName
  unfold findRoute at hfound
  unfold findRoute updateRouteInWorld
  exact find?_map_update r' w.routes hfound

theorem not_mem_filter_ne (l : List String) (x : String) :
    x ∉ l.filter (fun f => f ≠ x) := by
  intro hx
  rw [List.mem_filter] at hx
  simp at hx

/-- C7: amended — on deletion with the finalizer present, the controller runs
gateway synchronization against the gateway named by the route's FIRST PARENT
REFERENCE (not the previous-gateway annotation), then removes the finalizer
under a bounded retry-on-conflict loop tolerating an already-deleted route or
an already-removed finalizer as success; the deletion path is terminal. -/
theorem c7_deletion_path_amended (w : World) (reqNs reqName : String) (route : HTTPRoute)
    (pr : ParentRef) (prs : List ParentRef)
    (hfind : findRoute w reqNs reqName = some route)
    (hen : lookupD route.annotations AnnotationUseHttprouteOperator = "true")
    (hpr : route.parentRefs = pr :: prs)
    (hdel : route.deletionTimestampIsZero = false)
    (hfin : httprouteFinalizerName ∈ route.finalizers) :
    (reconcile w reqNs reqName
       = reconcileDeletion w reqNs reqName pr.name (pr.ns?.getD route.ns) route)
    ∧ ((handleHTTPRouteDeletion w pr.name (pr.ns?.getD route.ns)).err = none →
        (reconcile w reqNs reqName).err = none
        ∧ (∀ r', findRoute (reconcile w reqNs reqName).world reqNs reqName = some r' →
            httprouteFinalizerName ∉ r'.finalizers)) := by
  obtain ⟨hrns, hrname⟩ : route.ns = reqNs ∧ route.name = reqName := by
    have hp := List.find?_some hfind
    rw [Bool.and_eq_true, beq_iff_eq, beq_iff_eq] at hp
    exact hp
  have hmain : reconcile w reqNs reqName
      = reconcileDeletion w reqNs reqName pr.name (pr.ns?.getD route.ns) route := by
    simp only [reconcile, hfind]
    rw [if_neg (fun hcontra => hcontra hen)]
    simp only [effectiveGatewayRef, hpr]
    rw [if_pos hdel]
  refine ⟨hmain, fun herr => ?_⟩
  rw [hmain]
  unfold reconcileDeletion
  rw [if_pos hfin]
  simp only [herr]
  have hroutes : (handleHTTPRouteDeletion w pr.name (pr.ns?.getD route.ns)).world.routes
      = w.routes := handleHTTPRouteDeletion_routes w pr.name (pr.ns?.getD route.ns)
  have hfr1 : findRoute (handleHTTPRouteDeletion w pr.name (pr.ns?.getD route.ns)).world
      reqNs reqName = some route := by
    rw [findRoute_routes_eq _ w _ _ hroutes]
    exact hfind
  have hbody : removeFinalizerBody reqNs reqName
      (handleHTTPRouteDeletion w pr.name (pr.ns?.getD route.ns)).world
      = ⟨none,
         updateRouteInWorld (handleHTTPRouteDeletion w pr.name (pr.ns?.getD route.ns)).world
           { route with
             finalizers := route.finalizers.filter (fun f => f ≠ httprouteFinalizerName) },
         [WriteOp.updateRouteObj
           { route with
             finalizers := route.finalizers.filter (fun f => f ≠ httprouteFinalizerName) }]⟩ := by
    unfold removeFinalizerBody
    rw [hfr1]
    dsimp only
    rw [if_pos hfin]
  have hretry : retryOnConflict defaultRetrySteps (removeFinalizerBody reqNs reqName)
      (handleHTTPRouteDeletion w pr.name (pr.ns?.getD route.ns)).world
      = removeFinalizerBody reqNs reqName
          (handleHTTPRouteDeletion w pr.name (pr.ns?.getD route.ns)).world := by
    have h5 : defaultRetrySteps = 4 + 1 := rfl
    rw [h5]
    exact retryOnConflict_no_conflict 4 _ _ (by rw [removeFinalizerBody_err]; simp)
  rw [hretry, hbody]
  dsimp only
  constructor
  · rfl
  · intro r' hr'
    have hupd : findRoute
        (updateRouteInWorld (handleHTTPRouteDeletion w pr.name (pr.ns?.getD route.ns)).world
          { route with
            finalizers := route.finalizers.filter (fun f => f ≠ httprouteFinalizerName) })
        reqNs reqName
        = some { route with
            finalizers := route.finalizers.filter (fun f => f ≠ httprouteFinalizerName) } := by
      refine findRoute_updateRouteInWorld _ _ _ _ hrns hrname ?_
      rw [hfr1]
      rfl
    rw [hupd] at hr'
    injection hr' with hr'eq
    subst hr'eq
    exact not_mem_filter_ne route.finalizers httprouteFinalizerName

/-- C7: counterexample to the claim as stated — route `rte7` is deleting with
the finalizer present and records gateway `p7/old7` in its previous-gateway
annotation, yet reconciliation synchronizes (and here deletes) the
first-parent gateway `q7/new7` and leaves `p7/old7` untouched, although the
aggregation for `p7/old7` is empty and a sync there would have deleted it. -/
theorem c7_deletion_target_counterexample :
    lookupD rte7.annotations previousGatewayAnnotationKey = "p7/old7"
    ∧ (reconcile w7 "n7" "r7").err = none
    ∧ WriteOp.deleteGw "q7" "new7" ∈ (reconcile w7 "n7" "r7").ops
    ∧ (reconcile w7 "n7" "r7").world.gateways = [gwOld7]
    ∧ collectListenersForGateway (reconcile w7 "n7" "r7").world.routes "old7" "p7" = [] := by
  refine ⟨rfl, by decide, by decide, by decide, by decide⟩

/-- C7: witness for the amended theorem at the migrating-and-deleting world `w7`. -/
theorem c7_deletion_path_witness :
    (reconcile w7 "n7" "r7"
       = reconcileDeletion w7 "n7" "r7" "new7" "q7" rte7)
    ∧ (reconcile w7 "n7" "r7").err = none
    ∧ (∀ r', findRoute (reconcile w7 "n7" "r7").world "n7" "r7" = some r' →
        httprouteFinalizerName ∉ r'.finalizers) := by
  have h := c7_deletion_path_amended w7 "n7" "r7" rte7 { name := "new7", ns? := some "q7" } []
    rfl rfl rfl rfl (by decide)
  exact ⟨h.1, (h.2 (by decide)).1, (h.2 (by decide)).2⟩

/-- C8: malformed input terminates the event successfully and best-effort
old-gateway failures are swallowed — an enabled route with zero parent
references reconciles to success with no writes; an unparsable previous
gateway reference makes updateOldGateway succeed doing nothing; and a store
failure on a well-formed old-gateway update does not fail the reconciliation
of the route's new gateway, which is still created. -/
theorem c8_malformed_input :
    (∀ (w : World) (reqNs reqName : String) (route : HTTPRoute),
      findRoute w reqNs reqName = some route →
      lookupD route.annotations AnnotationUseHttprouteOperator = "true" →
      route.parentRefs = [] →
      reconcile w reqNs reqName = ⟨none, w, []⟩)
    ∧ (∀ (w : World) (gatewayRef : String),
        ((parseGatewayRef gatewayRef).1 = "" ∨ (parseGatewayRef gatewayRef).2 = "") →
        updateOldGateway w gatewayRef = ⟨none, w, []⟩)
    ∧ ((updateOldGateway w8 "p8/old8").err = some RErr.storeError
        ∧ (reconcile w8 "n8" "r8").err = none
        ∧ WriteOp.createGw gw8created ∈ (reconcile w8 "n8" "r8").ops) := by
  refine ⟨?_, ?_, by decide, by decide, by decide⟩
  · intro w reqNs reqName route hfind hen hpr
    simp only [reconcile, hfind]
    rw [if_neg (fun hcontra => hcontra hen)]
    simp only [effectiveGatewayRef, hpr]
  · intro w gatewayRef hbad
    unfold updateOldGateway
    rw [if_pos hbad]

/-- C8: witness instantiating the two universally quantified halves. -/
theorem c8_malformed_input_witness :
    reconcile w8a "n8a" "r8a" = ⟨none, w8a, []⟩
    ∧ updateOldGateway w8a "noslash" = ⟨none, w8a, []⟩ :=
  ⟨c8_malformed_input.1 w8a "n8a" "r8a" rte8a rfl rfl rfl,
   c8_malformed_input.2.1 w8a "noslash" (by decide)⟩

/-- C2: witness — an issuer mismatch and a zone mismatch each reject with the
exact message and leave the world untouched. -/
theorem c2_conflict_rejection_witness :
    ensureGateway w2i "g2" "n2" "zone-a" "issuer-b" =
      ⟨some (RErr.badRequest ("HTTPRoute cluster issuer mismatch: Gateway has issuer '"
          ++ lookupD gw2i.annotations clusterIssuerAnnotation
          ++ "' but HTTPRoute requires '" ++ "issuer-b" ++ "'")), w2i, []⟩
    ∧ ensureGateway w2z "k2" "m2" "zone-b" "issuer-a" =
      ⟨some (RErr.badRequest ("HTTPRoute IPAM zone mismatch: Gateway has zone '"
          ++ "zone-a" ++ "' but HTTPRoute requires '" ++ "zone-b" ++ "'")), w2z, []⟩ :=
  ⟨(c2_conflict_rejection w2i "g2" "n2" "zone-a" "issuer-b" gw2i rfl).1 (by decide),
   (c2_conflict_rejection w2z "k2" "m2" "zone-b" "issuer-a" gw2z rfl).2
     [( AnnotationIPAMZone, "zone-a")] "zone-a" rfl rfl rfl (by decide)⟩

/-- C3: witness — with no qualifying route left, both update paths delete the
gateway `n3/g3` rather than patching it empty. -/
theorem c3_empty_listeners_delete_witness :
    updateGatewayListeners w3 gw3 "n3" =
      ⟨none,
       { w3 with
         gateways := w3.gateways.filter (fun g => !(g.ns == gw3.ns && g.name == gw3.name)) },
       [WriteOp.deleteGw gw3.ns gw3.name]⟩
    ∧ updateOldGateway w3 "n3/g3" =
      ⟨none,
       { w3 with
         gateways := w3.gateways.filter (fun g => !(g.ns == gw3.ns && g.name == gw3.name)) },
       [WriteOp.deleteGw gw3.ns gw3.name]⟩ :=
  ⟨c3_empty_listeners_delete.1 w3 gw3 "n3" rfl (by decide),
   c3_empty_listeners_delete.2.2.1 w3 "n3/g3" gw3 (by decide) (by decide) rfl rfl (by decide)⟩

/-- C9: witness — a gateway with no Infrastructure block accepts any route
zone, while a gateway without the issuer annotation rejects a non-empty
effective issuer. -/
theorem c9_one_sided_zone_check_witness :
    ensureGateway w9a "g9" "n9" "some-other-zone" "issuer-x"
      = updateGatewayListeners w9a gw9a "n9"
    ∧ ensureGateway w9b "k9" "m9" "zone-z" "issuer-y" =
        ⟨some (RErr.badRequest ("HTTPRoute cluster issuer mismatch: Gateway has issuer '"
            ++ "" ++ "' but HTTPRoute requires '" ++ "issuer-y" ++ "'")), w9b, []⟩ :=
  ⟨(c9_one_sided_zone_check w9a "g9" "n9" "some-other-zone" "issuer-x" gw9a rfl).1
     rfl (Or.inl rfl),
   (c9_one_sided_zone_check w9b "k9" "m9" "zone-z" "issuer-y" gw9b rfl).2 rfl (by decide)⟩
